import Mathlib

/-!
Shallow embedding of the authentication and authorization subsystem of the
express-boilerplate-ts repository: the JWT token codec (token.service.ts),
the refresh-token ledger (token.model.ts), the credential authenticator and
session operations (auth.service.ts), the Google identity reconciler
(auth.service.ts / user.service.ts), the request authenticator
(passport.config.ts / auth.middleware.ts) and the authorization gates
(permission.middleware.ts / user.route.ts).

Conventions of the embedding:
* JavaScript promises/exceptions become explicit `Except ApiErr` results;
  operations that may mutate the store return the successor state as well.
* JWTs are modelled structurally: a signed token is its payload together
  with the secret it was signed with and its absolute expiry; `jwt.verify`
  checks the secret (signature) and then the expiry, reporting the two
  failures distinctly exactly as token.service.ts maps `JsonWebTokenError`
  and `TokenExpiredError`.
* The bcrypt primitive is an external collaborator and is passed in as a
  function `bc : String → String → Bool` (candidate, digest).
* Mongo collections are lists of documents; `findOne` is `List.find?`,
  `deleteOne` removes the first matching document and reports the count,
  `create` appends.  The `lowercase: true` schema option on `email` is
  modelled by lowercasing on write, matching the lowercased lookups.
-/

namespace EB

/-- ApiError from errors/ApiError.ts: an HTTP status code plus a message. -/
structure ApiErr where
  statusCode : Nat
  message : String
deriving DecidableEq, Repr

/-- JWT claims set produced by generateAccessToken / generateRefreshToken in
token.service.ts: userId, email, role, plus issued-at. -/
structure JwtPayload where
  userId : String
  email : String
  role : String
  iat : Nat
deriving DecidableEq, Repr

/-- A structurally modelled signed JWT: payload, signing secret, absolute
expiry (the `exp` claim). Two tokens are equal exactly when all claims and
the secret agree, as for real JWT strings. -/
structure SignedToken where
  payload : JwtPayload
  secret : String
  expiresAt : Nat
deriving DecidableEq, Repr

/-- jwtConfig.accessSecret from token.config.ts. -/
def accessSecret : String := "access-secret"

/-- jwtConfig.refreshSecret from token.config.ts (key separation: distinct
from the access secret). -/
def refreshSecret : String := "refresh-secret"

/-- jwtConfig.accessExpiration, '15m', in abstract time units. -/
def accessExpiration : Nat := 15

/-- jwtConfig.refreshExpiration, '7d', in abstract time units. -/
def refreshExpiration : Nat := 7 * 24 * 60

/-- The 7-day ledger expiry used by auth.service.ts
(`expiresAt.setDate(expiresAt.getDate() + 7)`). -/
def sevenDays : Nat := 7 * 24 * 60

/-- generateAccessToken from token.service.ts: sign
`{userId, email, role}` with the access secret and the short TTL. -/
def generateAccessToken (userId email role : String) (now : Nat) : SignedToken :=
  { payload := { userId := userId, email := email, role := role, iat := now }
    secret := accessSecret
    expiresAt := now + accessExpiration }

/-- generateRefreshToken from token.service.ts: sign the same claim shape
with the refresh secret and the long TTL. -/
def generateRefreshToken (userId email role : String) (now : Nat) : SignedToken :=
  { payload := { userId := userId, email := email, role := role, iat := now }
    secret := refreshSecret
    expiresAt := now + refreshExpiration }

/-- Token pair interface from token.service.ts. -/
structure TokenPair where
  accessToken : SignedToken
  refreshToken : SignedToken
deriving DecidableEq, Repr

/-- generateTokenPair from token.service.ts. -/
def generateTokenPair (userId email role : String) (now : Nat) : TokenPair :=
  { accessToken := generateAccessToken userId email role now
    refreshToken := generateRefreshToken userId email role now }

/-- verifyRefreshToken from token.service.ts: `jwt.verify` against the
refresh secret; `JsonWebTokenError` (bad signature) maps to 401
"Invalid refresh token", `TokenExpiredError` to 401 "Refresh token expired". -/
def verifyRefreshToken (t : SignedToken) (now : Nat) : Except ApiErr JwtPayload :=
  if t.secret ≠ refreshSecret then
    Except.error ⟨401, "Invalid refresh token"⟩
  else if t.expiresAt ≤ now then
    Except.error ⟨401, "Refresh token expired"⟩
  else
    Except.ok t.payload

/-- verifyAccessToken from token.service.ts, same shape against the access
secret. -/
def verifyAccessToken (t : SignedToken) (now : Nat) : Except ApiErr JwtPayload :=
  if t.secret ≠ accessSecret then
    Except.error ⟨401, "Invalid access token"⟩
  else if t.expiresAt ≤ now then
    Except.error ⟨401, "Access token expired"⟩
  else
    Except.ok t.payload

/-- A User document (user.model.ts): `email` is stored lowercased
(schema `lowercase: true`), `password` is the optional bcrypt digest,
`googleId` is the optional sparse-unique external id. -/
structure UserDoc where
  _id : String
  name : String
  email : String
  password : Option String
  role : String
  googleId : Option String
  profilePicture : Option String
  authProvider : String
deriving DecidableEq, Repr

/-- A Token document (token.model.ts): the refresh-token ledger entry. -/
structure TokenDoc where
  token : SignedToken
  userId : String
  expiresAt : Nat
deriving DecidableEq, Repr

/-- The persistent store plus the clock: the users collection, the
refresh-token ledger, the current time, and a source of fresh ObjectIds for
`new User(...)`. -/
structure AppState where
  users : List UserDoc
  tokens : List TokenDoc
  now : Nat
  nextId : Nat
deriving DecidableEq, Repr

/-- `Token.deleteOne({token})`: remove the first ledger document whose token
matches, returning the deleted count (0 or 1, the `token` field is unique)
and the remaining ledger. -/
def deleteOneToken (t : SignedToken) : List TokenDoc → Nat × List TokenDoc
  | [] => (0, [])
  | d :: ds =>
    if d.token = t then (1, ds)
    else
      let r := deleteOneToken t ds
      (r.1, d :: r.2)

/-- JavaScript `String.prototype.toLowerCase()` (and the mongoose
`lowercase: true` setter), modelled charwise. -/
def lowerCase (s : String) : String := ⟨s.data.map Char.toLower⟩

/-- comparePassword from user.model.ts: false when the account has no
password digest, otherwise the bcrypt comparison. -/
def comparePassword (bc : String → String → Bool) (u : UserDoc)
    (candidate : String) : Bool :=
  match u.password with
  | none => false
  | some digest => bc candidate digest

/-- `User.findOne({email: email.toLowerCase()})` as used by authenticateUser
and getUserByEmailInternal. -/
def findUserByEmail (email : String) (users : List UserDoc) : Option UserDoc :=
  users.find? (fun u => decide (u.email = lowerCase email))

/-- `User.findOne({googleId})` from getUserByGoogleId in user.service.ts. -/
def findUserByGoogleId (googleId : String) (users : List UserDoc) : Option UserDoc :=
  users.find? (fun u => decide (u.googleId = some googleId))

/-- `User.findById(id)`. -/
def findUserById (id : String) (users : List UserDoc) : Option UserDoc :=
  users.find? (fun u => decide (u._id = id))

/-- `Token.findOne({token})`. -/
def findTokenDoc (t : SignedToken) (ledger : List TokenDoc) : Option TokenDoc :=
  ledger.find? (fun d => decide (d.token = t))

/-- authenticateUser from auth.service.ts: case-insensitive email lookup,
password check, then token-pair issuance plus a 7-day ledger record; every
credential failure is the one generic 401 "Invalid email or password". -/
def authenticateUser (bc : String → String → Bool) (email password : String)
    (s : AppState) : Except ApiErr TokenPair × AppState :=
  match findUserByEmail email s.users with
  | none => (Except.error ⟨401, "Invalid email or password"⟩, s)
  | some user =>
    if ¬ comparePassword bc user password then
      (Except.error ⟨401, "Invalid email or password"⟩, s)
    else
      let tokens := generateTokenPair user._id user.email user.role s.now
      let expiresAt := s.now + sevenDays
      (Except.ok tokens,
        { s with tokens :=
            s.tokens ++ [{ token := tokens.refreshToken, userId := user._id,
                           expiresAt := expiresAt }] })

/-- The two kinds of writes refreshAccessToken performs against the
refresh-token ledger. -/
inductive LedgerOp
  | deleteTok (t : SignedToken)
  | insertTok (d : TokenDoc)
deriving DecidableEq, Repr

/-- Apply one ledger write. -/
def applyLedgerOp (ledger : List TokenDoc) : LedgerOp → List TokenDoc
  | LedgerOp.deleteTok t => (deleteOneToken t ledger).2
  | LedgerOp.insertTok d => ledger ++ [d]

/-- Apply a sequence of ledger writes in order. -/
def applyLedgerOps (ledger : List TokenDoc) (ops : List LedgerOp) : List TokenDoc :=
  ops.foldl applyLedgerOp ledger

/-- refreshAccessToken from auth.service.ts, with its ledger writes made
explicit in program order: verify the refresh token's signature and expiry,
require a live ledger record (deleting an expired one), require the user to
still exist (deleting the orphaned record otherwise), then delete the old
record and insert the new one, returning only the new access token (the
source returns `tokens.accessToken : Promise<string>`). -/
def refreshAccessTokenOps (refreshToken : SignedToken) (s : AppState) :
    Except ApiErr SignedToken × List LedgerOp :=
  match verifyRefreshToken refreshToken s.now with
  | Except.error e => (Except.error e, [])
  | Except.ok payload =>
    match findTokenDoc refreshToken s.tokens with
    | none => (Except.error ⟨401, "Invalid or expired refresh token"⟩, [])
    | some tokenDoc =>
      if tokenDoc.expiresAt < s.now then
        (Except.error ⟨401, "Refresh token expired"⟩, [LedgerOp.deleteTok refreshToken])
      else
        match findUserById payload.userId s.users with
        | none =>
          (Except.error ⟨401, "User not found"⟩, [LedgerOp.deleteTok refreshToken])
        | some user =>
          let tokens := generateTokenPair user._id user.email payload.role s.now
          let expiresAt := s.now + sevenDays
          (Except.ok tokens.accessToken,
            [LedgerOp.deleteTok refreshToken,
             LedgerOp.insertTok { token := tokens.refreshToken, userId := user._id,
                                  expiresAt := expiresAt }])

/-- refreshAccessToken as a state transformer: the result together with the
store after all the ledger writes of `refreshAccessTokenOps`. -/
def refreshAccessToken (refreshToken : SignedToken) (s : AppState) :
    Except ApiErr SignedToken × AppState :=
  let r := refreshAccessTokenOps refreshToken s
  (r.1, { s with tokens := applyLedgerOps s.tokens r.2 })

/-- revokeRefreshToken from auth.service.ts: the signature check result is
discarded (a failure is only logged), then the ledger delete; 404 exactly
when the delete removed nothing. -/
def revokeRefreshToken (refreshToken : SignedToken) (s : AppState) :
    Except ApiErr Unit × AppState :=
  let _ := verifyRefreshToken refreshToken s.now
  let r := deleteOneToken refreshToken s.tokens
  if r.1 = 0 then
    (Except.error ⟨404, "Refresh token not found"⟩, { s with tokens := r.2 })
  else
    (Except.ok (), { s with tokens := r.2 })

/-- GoogleAuthData from google.types.ts. -/
structure GoogleAuthData where
  googleId : String
  email : String
  name : String
  profilePicture : Option String
deriving DecidableEq, Repr

/-- Fresh ObjectId for a `new User(...)` document. -/
def freshId (s : AppState) : String := "oid" ++ Nat.repr s.nextId

/-- The document `new User({...googleData, authProvider: 'google',
role: 'user'})` builds in createGoogleUser: no password, default lowest
role, the external id set, the email lowercased by the schema. -/
def googleNewUser (g : GoogleAuthData) (s : AppState) : UserDoc :=
  { _id := freshId s, name := g.name, email := lowerCase g.email,
    password := none, role := "user", googleId := some g.googleId,
    profilePicture := g.profilePicture, authProvider := "google" }

/-- createGoogleUser from user.service.ts: insert a new user built from the
Google profile with `authProvider: 'google'` and `role: 'user'`; a unique-key
violation (duplicate email, or duplicate sparse googleId — Mongo error code
11000) is mapped to 409 "Email already exists". -/
def createGoogleUser (g : GoogleAuthData) (s : AppState) :
    Except ApiErr UserDoc × AppState :=
  if s.users.any (fun u => decide (u.email = lowerCase g.email)) ||
     s.users.any (fun u => decide (u.googleId = some g.googleId)) then
    (Except.error ⟨409, "Email already exists"⟩, s)
  else
    (Except.ok (googleNewUser g s),
      { s with users := s.users ++ [googleNewUser g s], nextId := s.nextId + 1 })

/-- The `{googleId, profilePicture}` update of `findByIdAndUpdate` in
linkGoogleAccount: mongoose drops an `undefined` profilePicture from the
update, so the picture is only overwritten when one was provided. -/
def applyLink (googleId : String) (profilePicture : Option String)
    (u : UserDoc) : UserDoc :=
  { u with googleId := some googleId,
           profilePicture :=
             match profilePicture with
             | some p => some p
             | none => u.profilePicture }

/-- linkGoogleAccount from user.service.ts:
`findByIdAndUpdate(userId, {googleId, profilePicture}, {new: true})`,
404 when no such user. -/
def linkGoogleAccount (userId googleId : String) (profilePicture : Option String)
    (s : AppState) : Except ApiErr UserDoc × AppState :=
  match findUserById userId s.users with
  | none => (Except.error ⟨404, "User not found"⟩, s)
  | some u =>
    (Except.ok (applyLink googleId profilePicture u),
      { s with users :=
          s.users.map (fun v =>
            if v._id = userId then applyLink googleId profilePicture v else v) })

/-- The try-block body of authenticateGoogleUser in auth.service.ts: the
three-step reconciler — find by googleId (return unmodified), else find by
email and link, else create. -/
def authenticateGoogleUserBody (g : GoogleAuthData) (s : AppState) :
    Except ApiErr UserDoc × AppState :=
  match findUserByGoogleId g.googleId s.users with
  | some user => (Except.ok user, s)
  | none =>
    match findUserByEmail g.email s.users with
    | some user => linkGoogleAccount user._id g.googleId g.profilePicture s
    | none => createGoogleUser g s

/-- The catch-all of authenticateGoogleUser: any error thrown inside the try
block — including the 409 from createGoogleUser — is replaced by a generic
500 "Failed to authenticate with Google". -/
def googleCatch (r : Except ApiErr UserDoc × AppState) :
    Except ApiErr UserDoc × AppState :=
  match r.1 with
  | Except.ok u => (Except.ok u, r.2)
  | Except.error _ =>
    (Except.error ⟨500, "Failed to authenticate with Google"⟩, r.2)

/-- authenticateGoogleUser from auth.service.ts: the reconciler body wrapped
in its catch-all. -/
def authenticateGoogleUser (g : GoogleAuthData) (s : AppState) :
    Except ApiErr UserDoc × AppState :=
  googleCatch (authenticateGoogleUserBody g s)

/-- One entry of `profile.emails` in a Google OAuth profile. -/
structure GoogleEmail where
  value : String
  verified : Bool
deriving DecidableEq, Repr

/-- The slice of the passport Google profile the verify callback reads. -/
structure GoogleProfileData where
  id : String
  displayName : String
  emails : List GoogleEmail
  photos : List String
deriving DecidableEq, Repr

/-- The GoogleStrategy verify callback from passport.config.ts: reject with
`Error('Email not verified by Google')` when `profile.emails?.[0]` is absent
or unverified — before any account lookup — else build the GoogleAuthData and
run the reconciler. (The raised value is a plain Error, which the top-level
handler maps to a 500 envelope; the message is what identifies it.) -/
def googleVerifyCallback (profile : GoogleProfileData) (s : AppState) :
    Except ApiErr UserDoc × AppState :=
  match profile.emails.head? with
  | none => (Except.error ⟨500, "Email not verified by Google"⟩, s)
  | some email =>
    if ¬ email.verified then
      (Except.error ⟨500, "Email not verified by Google"⟩, s)
    else
      authenticateGoogleUser
        { googleId := profile.id, email := email.value,
          name := profile.displayName, profilePicture := profile.photos.head? }
        s

/-- The payload of a Google ID token as read by googleMobileAuth in
auth.controller.ts. -/
structure GoogleIdTokenPayload where
  sub : String
  email : String
  email_verified : Bool
  name : Option String
  picture : Option String
deriving DecidableEq, Repr

/-- googleMobileAuth from auth.controller.ts, from the point where the
Google ID token has been cryptographically verified: reject unverified
emails with 401 before any lookup, else reconcile, then issue a token pair
and record the refresh token in the ledger. -/
def googleMobileAuth (payload : GoogleIdTokenPayload) (s : AppState) :
    Except ApiErr (UserDoc × TokenPair) × AppState :=
  if ¬ payload.email_verified then
    (Except.error ⟨401, "Email not verified by Google"⟩, s)
  else
    match authenticateGoogleUser
        { googleId := payload.sub, email := payload.email,
          name := (payload.name).getD payload.email,
          profilePicture := payload.picture } s with
    | (Except.error e, s1) => (Except.error e, s1)
    | (Except.ok user, s1) =>
      let tokens := generateTokenPair user._id user.email user.role s1.now
      (Except.ok (user, tokens),
        { s1 with tokens :=
            s1.tokens ++ [{ token := tokens.refreshToken, userId := user._id,
                            expiresAt := tokens.refreshToken.expiresAt }] })

/-- Permission values from constants/permissions.ts. -/
inductive PermissionType
  | manageUsers
  | getUsers
  | getProfile
  | updateOwnProfile
deriving DecidableEq, Repr

/-- ALL_ROLES from constants/roles.ts, as the role strings. -/
def ALL_ROLES : List String := ["admin", "user", "therapist"]

/-- RolePermissions from constants/roles.ts: the static role → permission-set
table. -/
def RolePermissions (role : String) : Option (List PermissionType) :=
  if role = "admin" then
    some [PermissionType.manageUsers, PermissionType.getUsers,
          PermissionType.getProfile, PermissionType.updateOwnProfile]
  else if role = "user" then
    some [PermissionType.getProfile, PermissionType.updateOwnProfile]
  else if role = "therapist" then
    some [PermissionType.getProfile, PermissionType.updateOwnProfile]
  else
    none

/-- getPermissionsForRole from constants/roles.ts:
`RolePermissions[role] || []` — unknown roles get the empty set. -/
def getPermissionsForRole (role : String) : List PermissionType :=
  (RolePermissions role).getD []

/-- The object the JwtStrategy verify callback passes to `done` on success
(passport.config.ts): id, email, an empty name placeholder, role. -/
structure JwtUser where
  id : String
  email : String
  name : String
  role : String
deriving DecidableEq, Repr

/-- The identity attached to `req.user` by the authenticate middleware:
the JwtStrategy user spread together with the resolved permission set. -/
structure AuthedUser where
  id : String
  email : String
  name : String
  role : String
  permissions : List PermissionType
deriving DecidableEq, Repr

/-- A decoded access-token claims set as passport-jwt hands it to the
strategy callback after the signature, issuer, audience and expiry checks
have all passed: each application claim may be absent. -/
structure RawJwtPayload where
  userId : Option String
  email : Option String
  role : Option String
deriving DecidableEq, Repr

/-- JavaScript falsiness of an optional string claim: absent or empty. -/
def falsyClaim : Option String → Bool
  | none => true
  | some s => s.isEmpty

/-- The JwtStrategy verify callback from passport.config.ts: reject the
payload (done(null, false)) unless userId, email and role are all truthy;
otherwise pass the identity on with an empty name placeholder. -/
def jwtStrategyVerify (p : RawJwtPayload) : Option JwtUser :=
  if falsyClaim p.userId || falsyClaim p.email || falsyClaim p.role then
    none
  else
    some { id := (p.userId).getD "", email := (p.email).getD "",
           name := "", role := (p.role).getD "" }

/-- The authenticate middleware from auth.middleware.ts, applied to a
payload that already passed signature verification: a rejected payload
becomes a 401 ApiError and the handler chain stops; an accepted one is
attached to the request with `permissions: getPermissionsForRole(user.role)`. -/
def authenticateGate (p : RawJwtPayload) : Except ApiErr AuthedUser :=
  match jwtStrategyVerify p with
  | none => Except.error ⟨401, "Unauthorized"⟩
  | some u =>
    Except.ok { id := u.id, email := u.email, name := u.name, role := u.role,
                permissions := getPermissionsForRole u.role }

/-- requireAnyPermission from permission.middleware.ts (the authenticated
case): pass when the attached set holds at least one listed permission,
else a 403. -/
def requireAnyPermission (perms : List PermissionType) (u : AuthedUser) :
    Option ApiErr :=
  if perms.any (fun p => u.permissions.contains p) then none
  else some ⟨403, "Permission denied"⟩

/-- The zod userIdParamSchema gate on `GET /users/:id`: the id param must be
a nonempty string. -/
def validateUserIdParam (id : String) : Bool :=
  ¬ id.isEmpty

/-- The `GET /users/:id` pipeline from user.route.ts after `authenticate`
has attached the identity: param validation, then
`requireAnyPermission([GET_PROFILE, GET_USERS])`, then the inline ownership
check (`req.user.id !== req.params.id && !permissions.includes(GET_USERS)`
throws 403), and only then the getUserById handler. `Except.ok` means the
handler was reached. -/
def getUserByIdRoute (u : AuthedUser) (pid : String) : Except ApiErr Unit :=
  if ¬ validateUserIdParam pid then
    Except.error ⟨400, "ID is required"⟩
  else
    match requireAnyPermission [PermissionType.getProfile, PermissionType.getUsers] u with
    | some e => Except.error e
    | none =>
      if u.id ≠ pid ∧ ¬ u.permissions.contains PermissionType.getUsers then
        Except.error ⟨403, "You can only view your own profile"⟩
      else
        Except.ok ()

/-! ### Shared lemmas about the store primitives -/

/-- The ledger delete reports zero deletions exactly when no document
matches. -/
theorem deleteOneToken_count_zero_iff (t : SignedToken) :
    ∀ l : List TokenDoc, (deleteOneToken t l).1 = 0 ↔ ∀ d ∈ l, d.token ≠ t
  | [] => by simp [deleteOneToken]
  | d :: ds => by
    by_cases h : d.token = t
    · simp [deleteOneToken, h]
    · simp [deleteOneToken, h, deleteOneToken_count_zero_iff t ds]

/-- Every survivor of a ledger delete was already in the ledger. -/
theorem deleteOneToken_subset (t : SignedToken) :
    ∀ l : List TokenDoc, ∀ x ∈ (deleteOneToken t l).2, x ∈ l
  | [], x, hx => by simp [deleteOneToken] at hx
  | d :: ds, x, hx => by
    by_cases h : d.token = t
    · simp only [deleteOneToken, if_pos h] at hx
      exact List.mem_cons_of_mem d hx
    · simp only [deleteOneToken, if_neg h, List.mem_cons] at hx
      rcases hx with hx | hx
      · exact hx ▸ List.mem_cons_self d ds
      · exact List.mem_cons_of_mem d (deleteOneToken_subset t ds x hx)

/-- When ledger tokens are pairwise distinct (the unique index on `token`),
deleting the first match leaves no document with that token. -/
theorem deleteOneToken_removes (t : SignedToken) :
    ∀ l : List TokenDoc, l.Pairwise (fun x y => x.token ≠ y.token) →
      ∀ x ∈ (deleteOneToken t l).2, x.token ≠ t
  | [], _, x, hx => by simp [deleteOneToken] at hx
  | d :: ds, hp, x, hx => by
    rcases List.pairwise_cons.mp hp with ⟨hd, hds⟩
    by_cases h : d.token = t
    · simp only [deleteOneToken, if_pos h] at hx
      intro hxt
      exact hd x hx (by rw [h, hxt])
    · simp only [deleteOneToken, if_neg h, List.mem_cons] at hx
      rcases hx with hx | hx
      · rw [hx]; exact h
      · exact deleteOneToken_removes t ds hds x hx

/-- find? over an appended singleton when the front misses. -/
theorem find?_append_one (p : α → Bool) (x : α) :
    ∀ l : List α, l.find? p = none →
      (l ++ [x]).find? p = if p x then some x else none
  | [], _ => by cases hx : p x <;> simp [List.find?, hx]
  | a :: l, h => by
    by_cases ha : p a
    · simp [List.find?, ha] at h
    · simp only [List.cons_append, List.find?, ha] at h ⊢
      exact find?_append_one p x l h

/-- revokeRefreshToken written as one conditional on the delete count (the
discarded verification result is dropped). -/
theorem revokeRefreshToken_eq (rt : SignedToken) (s : AppState) :
    revokeRefreshToken rt s =
      if (deleteOneToken rt s.tokens).1 = 0 then
        (Except.error ⟨404, "Refresh token not found"⟩,
          { s with tokens := (deleteOneToken rt s.tokens).2 })
      else (Except.ok (), { s with tokens := (deleteOneToken rt s.tokens).2 }) := by
  unfold revokeRefreshToken
  rfl

/-- find? succeeds when some member satisfies the predicate. -/
theorem find?_of_exists (p : α → Bool) :
    ∀ l : List α, (∃ x ∈ l, p x = true) →
      ∃ w, l.find? p = some w ∧ p w = true
  | [], h => by simp at h
  | a :: l, h => by
    by_cases ha : p a
    · exact ⟨a, by simp [List.find?, ha], ha⟩
    · rcases h with ⟨x, hx, hpx⟩
      rcases List.mem_cons.mp hx with rfl | hx
      · exact absurd hpx ha
      · rcases find?_of_exists p l ⟨x, hx, hpx⟩ with ⟨w, hw, hpw⟩
        exact ⟨w, by simp [List.find?, ha, hw], hpw⟩

/-! ### C7 — credential authentication fails with one generic error -/

/-- C7: authenticateUser fails with the single generic 401
"Invalid email or password" — the same error value, and no store change — in
all three cases: no account with the case-folded email, account without a
password digest, or digest mismatch. -/
theorem authenticateUser_generic_error (bc : String → String → Bool)
    (email password : String) (s : AppState)
    (h : findUserByEmail email s.users = none ∨
         ∃ u, findUserByEmail email s.users = some u ∧
           (u.password = none ∨
            ∃ d, u.password = some d ∧ bc password d = false)) :
    authenticateUser bc email password s =
      (Except.error ⟨401, "Invalid email or password"⟩, s) := by
  unfold authenticateUser
  rcases h with h | ⟨u, hu, hcase⟩
  · rw [h]
  · rw [hu]
    have hcmp : comparePassword bc u password = false := by
      unfold comparePassword
      rcases hcase with hp | ⟨d, hd, hbc⟩
      · rw [hp]
      · rw [hd]; exact hbc
    simp [hcmp]

/-- A federated-only account (no password digest) used in witnesses. -/
def wFederatedUser : UserDoc :=
  { _id := "u1", name := "A", email := "a@x.com", password := none,
    role := "user", googleId := some "g1", profilePicture := none,
    authProvider := "google" }

/-- A local account with a password digest used in witnesses. -/
def wLocalUser : UserDoc :=
  { _id := "u1", name := "A", email := "a@x.com", password := some "other",
    role := "user", googleId := none, profilePicture := none,
    authProvider := "local" }

/-- Witness for C7: all three failure cases evaluated on concrete stores,
each producing exactly the same generic error. -/
theorem authenticateUser_generic_error_witness :
    (authenticateUser (fun c d => c = d) "a@x.com" "pw"
        { users := [], tokens := [], now := 0, nextId := 0 } =
      (Except.error ⟨401, "Invalid email or password"⟩,
        { users := [], tokens := [], now := 0, nextId := 0 })) ∧
    (authenticateUser (fun c d => c = d) "a@x.com" "pw"
        { users := [wFederatedUser], tokens := [], now := 0, nextId := 1 } =
      (Except.error ⟨401, "Invalid email or password"⟩,
        { users := [wFederatedUser], tokens := [], now := 0, nextId := 1 })) ∧
    (authenticateUser (fun c d => c = d) "a@x.com" "pw"
        { users := [wLocalUser], tokens := [], now := 0, nextId := 1 } =
      (Except.error ⟨401, "Invalid email or password"⟩,
        { users := [wLocalUser], tokens := [], now := 0, nextId := 1 })) :=
  ⟨authenticateUser_generic_error _ _ _ _ (Or.inl (by decide)),
   authenticateUser_generic_error _ _ _ _
     (Or.inr ⟨wFederatedUser, by decide, Or.inl rfl⟩),
   authenticateUser_generic_error _ _ _ _
     (Or.inr ⟨wLocalUser, by decide, Or.inr ⟨"other", rfl, by decide⟩⟩)⟩

/-! ### C8 — revoke ignores signature verification -/

/-- C8: revokeRefreshToken never raises a verification error: for every
token — verifiable or not — it succeeds exactly when a ledger document
matches (and in particular an expired or malformed token that is still
ledgered is revoked), and fails 404 exactly when the ledger delete removes
zero documents. -/
theorem revokeRefreshToken_ledger_only (rt : SignedToken) (s : AppState) :
    ((revokeRefreshToken rt s).1 =
        Except.error ⟨404, "Refresh token not found"⟩ ↔
      ∀ d ∈ s.tokens, d.token ≠ rt) ∧
    ((revokeRefreshToken rt s).1 = Except.ok () ↔
      ∃ d ∈ s.tokens, d.token = rt) ∧
    ((verifyRefreshToken rt s.now).isOk = false →
      (∃ d ∈ s.tokens, d.token = rt) →
      (revokeRefreshToken rt s).1 = Except.ok ()) := by
  have hiff := deleteOneToken_count_zero_iff rt s.tokens
  rw [revokeRefreshToken_eq]
  by_cases h : (deleteOneToken rt s.tokens).1 = 0
  · rw [if_pos h]
    refine ⟨⟨fun _ => hiff.mp h, fun _ => rfl⟩, ⟨?_, ?_⟩, ?_⟩
    · intro hc; exact absurd hc (by simp)
    · rintro ⟨d, hd, hdt⟩; exact absurd hdt (hiff.mp h d hd)
    · rintro _ ⟨d, hd, hdt⟩; exact absurd hdt (hiff.mp h d hd)
  · rw [if_neg h]
    have hex : ∃ d ∈ s.tokens, d.token = rt := by
      by_contra hne
      push_neg at hne
      exact h (hiff.mpr hne)
    refine ⟨⟨?_, ?_⟩, ⟨fun _ => hex, fun _ => rfl⟩, fun _ _ => rfl⟩
    · intro hc; exact absurd hc (by simp)
    · intro hall
      rcases hex with ⟨d, hd, hdt⟩
      exact absurd hdt (hall d hd)

/-- Witness for C8: a token whose signature verification fails (it is past
its expiry) but whose ledger record exists is still revoked successfully. -/
theorem revokeRefreshToken_ledger_only_witness :
    (revokeRefreshToken
        { payload := { userId := "u1", email := "a@x.com", role := "user", iat := 0 },
          secret := "refresh-secret", expiresAt := 3 }
        { users := [],
          tokens := [{ token := { payload := { userId := "u1", email := "a@x.com",
                                               role := "user", iat := 0 },
                                  secret := "refresh-secret", expiresAt := 3 },
                       userId := "u1", expiresAt := 3 }],
          now := 10, nextId := 0 }).1 = Except.ok () :=
  (revokeRefreshToken_ledger_only _ _).2.2 (by decide) (by decide)

/-! ### C3 — unverified email is rejected before any lookup or write -/

/-- C3: when the federated identity's email is unverified, both Google
authentication entry points — the passport verify callback (web) and
googleMobileAuth (mobile) — fail with the "Email not verified by Google"
error and leave the store untouched: no Account is created or modified, and
no lookup result can influence the outcome. -/
theorem unverified_email_rejected (profile : GoogleProfileData)
    (p : GoogleIdTokenPayload) (s : AppState)
    (hweb : ∀ e, profile.emails.head? = some e → e.verified = false)
    (hmob : p.email_verified = false) :
    googleVerifyCallback profile s =
        (Except.error ⟨500, "Email not verified by Google"⟩, s) ∧
    googleMobileAuth p s =
        (Except.error ⟨401, "Email not verified by Google"⟩, s) := by
  constructor
  · unfold googleVerifyCallback
    cases he : profile.emails.head? with
    | none => rfl
    | some e =>
      have := hweb e he
      simp [this]
  · unfold googleMobileAuth
    simp [hmob]

/-- Witness for C3: a concrete profile and mobile payload carrying an
unverified email are both rejected with the store unchanged. -/
theorem unverified_email_rejected_witness :
    googleVerifyCallback
        { id := "g1", displayName := "A",
          emails := [{ value := "a@x.com", verified := false }], photos := [] }
        { users := [], tokens := [], now := 0, nextId := 0 } =
      (Except.error ⟨500, "Email not verified by Google"⟩,
        { users := [], tokens := [], now := 0, nextId := 0 }) ∧
    googleMobileAuth
        { sub := "g1", email := "a@x.com", email_verified := false,
          name := some "A", picture := none }
        { users := [], tokens := [], now := 0, nextId := 0 } =
      (Except.error ⟨401, "Email not verified by Google"⟩,
        { users := [], tokens := [], now := 0, nextId := 0 }) :=
  unverified_email_rejected _ _ _ (by decide) rfl

/-! ### C10 — the request-authenticator gate only admits well-formed identities -/

/-- C10: for any access-token payload that already passed signature
verification, the gate rejects it with a 401 — so the handler is never
reached — whenever userId, email or role is missing or empty; otherwise the
attached context is exactly the payload's userId, email and role (with the
empty name placeholder) plus the static registry's permission set for that
role. -/
theorem authenticateGate_wellformed (p : RawJwtPayload) :
    ((falsyClaim p.userId || falsyClaim p.email || falsyClaim p.role) = true →
      authenticateGate p = Except.error ⟨401, "Unauthorized"⟩) ∧
    (∀ uid em rl, p.userId = some uid → uid.isEmpty = false →
      p.email = some em → em.isEmpty = false →
      p.role = some rl → rl.isEmpty = false →
      authenticateGate p =
        Except.ok { id := uid, email := em, name := "", role := rl,
                    permissions := getPermissionsForRole rl }) := by
  constructor
  · intro hfal
    unfold authenticateGate jwtStrategyVerify
    simp [hfal]
  · intro uid em rl huid huide hem heme hrl hrle
    unfold authenticateGate jwtStrategyVerify
    simp [huid, hem, hrl, falsyClaim, huide, heme, hrle]

/-- Witness for C10: a payload with a missing role is rejected, while a
complete payload yields the identity with the admin permission set. -/
theorem authenticateGate_wellformed_witness :
    (authenticateGate { userId := some "u1", email := some "a@x.com", role := none } =
      Except.error ⟨401, "Unauthorized"⟩) ∧
    (authenticateGate { userId := some "u1", email := some "a@x.com", role := some "admin" } =
      Except.ok { id := "u1", email := "a@x.com", name := "", role := "admin",
                  permissions := getPermissionsForRole "admin" }) :=
  ⟨(authenticateGate_wellformed _).1 (by decide),
   (authenticateGate_wellformed _).2 "u1" "a@x.com" "admin" rfl (by decide) rfl
     (by decide) rfl (by decide)⟩

/-! ### C9 — the per-user route's ownership gate -/

/-- C9: on `GET /users/:id`, for any identity attached by the gate (role one
of the registry roles, permission set resolved from the registry) and any
well-formed id param, the request fails 403 whenever the identity's id
differs from the path id and the set lacks getUsers, and reaches the handler
whenever the ids agree or getUsers is present. -/
theorem getUserByIdRoute_ownership (u : AuthedUser) (pid : String)
    (hrole : u.role ∈ ALL_ROLES)
    (hperms : u.permissions = getPermissionsForRole u.role)
    (hpid : validateUserIdParam pid = true) :
    (u.id ≠ pid → u.permissions.contains PermissionType.getUsers = false →
      getUserByIdRoute u pid =
        Except.error ⟨403, "You can only view your own profile"⟩) ∧
    ((u.id = pid ∨ u.permissions.contains PermissionType.getUsers = true) →
      getUserByIdRoute u pid = Except.ok ()) := by
  have hmem : u.role = "admin" ∨ u.role = "user" ∨ u.role = "therapist" := by
    simpa [ALL_ROLES] using hrole
  have hany : requireAnyPermission
      [PermissionType.getProfile, PermissionType.getUsers] u = none := by
    unfold requireAnyPermission
    rcases hmem with h | h | h <;> rw [hperms, h] <;> decide
  constructor
  · intro hne hng
    unfold getUserByIdRoute
    rw [if_neg (by simp [hpid]), hany]
    rw [if_pos ⟨hne, by simp only [hng]; decide⟩]
  · intro hok
    unfold getUserByIdRoute
    rw [if_neg (by simp [hpid]), hany]
    rcases hok with heq | hg
    · rw [if_neg (by simp [heq])]
    · rw [if_neg (by simp only [hg]; simp)]

/-- Witness for C9: with the registry's sets, a non-admin reading another
user's id is refused 403; the same user reading their own id, and an admin
reading anyone's, reach the handler. -/
theorem getUserByIdRoute_ownership_witness :
    (getUserByIdRoute
        { id := "u1", email := "a@x.com", name := "", role := "user",
          permissions := getPermissionsForRole "user" } "u2" =
      Except.error ⟨403, "You can only view your own profile"⟩) ∧
    (getUserByIdRoute
        { id := "u1", email := "a@x.com", name := "", role := "user",
          permissions := getPermissionsForRole "user" } "u1" =
      Except.ok ()) ∧
    (getUserByIdRoute
        { id := "u1", email := "a@x.com", name := "", role := "admin",
          permissions := getPermissionsForRole "admin" } "u2" =
      Except.ok ()) :=
  ⟨(getUserByIdRoute_ownership _ _ (by decide) rfl (by decide)).1
      (by decide) (by decide),
   (getUserByIdRoute_ownership _ _ (by decide) rfl (by decide)).2
      (Or.inl rfl),
   (getUserByIdRoute_ownership _ _ (by decide) rfl (by decide)).2
      (Or.inr (by decide))⟩

/-! ### C2 — a duplicate hit in the create step is not surfaced as 409 -/

/-- The store as another request's reconciliation left it just before this
request's create step runs: the account for a@x.com already exists (the
duplicate-insert race of §4.4 of the spec). -/
def raceState : AppState :=
  { users := [{ _id := "oid0", name := "A", email := "a@x.com",
                password := none, role := "user", googleId := some "g1",
                profilePicture := none, authProvider := "google" }],
    tokens := [], now := 0, nextId := 1 }

/-- The identity whose create step collides with `raceState`. -/
def raceInput : GoogleAuthData :=
  { googleId := "g2", email := "a@x.com", name := "A2", profilePicture := none }

/-- C2 (code bug): when the create step hits a duplicate, createGoogleUser
does raise the intended 409 Conflict, but authenticateGoogleUser's blanket
catch replaces it with the generic 500 "Failed to authenticate with Google",
so the conflict never reaches the caller as a 409 — contradicting both the
spec and the explicit 409 mapping inside createGoogleUser (and the
errorHandler's own 11000 → 409 rule). -/
theorem googleConflict_swallowed_to_500 :
    (createGoogleUser raceInput raceState).1 =
        Except.error ⟨409, "Email already exists"⟩ ∧
    googleCatch (createGoogleUser raceInput raceState) =
        (Except.error ⟨500, "Failed to authenticate with Google"⟩, raceState) :=
  ⟨rfl, rfl⟩

/-! ### C5 — account linking preserves every field but the linked ones -/

/-- C5: when the reconciler links (external-id lookup misses, email lookup
hits an account with no external id, the id lookup inside the update finds
that same account), the returned account keeps the original id, role, email,
password digest, name and origin tag; only the external id is newly set, and
the profile picture only when one was provided. -/
theorem linkGoogle_frame_preserving (g : GoogleAuthData) (s : AppState)
    (a : UserDoc)
    (h1 : findUserByGoogleId g.googleId s.users = none)
    (h2 : findUserByEmail g.email s.users = some a)
    (h3 : findUserById a._id s.users = some a)
    (_h0 : a.googleId = none) :
    ∃ u1 s1, authenticateGoogleUser g s = (Except.ok u1, s1) ∧
      u1._id = a._id ∧ u1.role = a.role ∧ u1.email = a.email ∧
      u1.password = a.password ∧ u1.name = a.name ∧
      u1.authProvider = a.authProvider ∧
      u1.googleId = some g.googleId ∧
      (∀ pic, g.profilePicture = some pic → u1.profilePicture = some pic) ∧
      (g.profilePicture = none → u1.profilePicture = a.profilePicture) := by
  refine ⟨applyLink g.googleId g.profilePicture a,
    { s with users := s.users.map (fun v =>
        if v._id = a._id then applyLink g.googleId g.profilePicture v else v) },
    ?_, rfl, rfl, rfl, rfl, rfl, rfl, rfl, ?_, ?_⟩
  · unfold authenticateGoogleUser authenticateGoogleUserBody googleCatch
      linkGoogleAccount
    rw [h1, h2]
    simp only [h3]
  · intro pic hpic
    simp [applyLink, hpic]
  · intro hnone
    simp [applyLink, hnone]

/-- Witness for C5: linking "g1" onto a local password account keeps id,
role, email and digest and only adds the external id. -/
theorem linkGoogle_frame_preserving_witness :
    ∃ u1 s1,
      authenticateGoogleUser
          { googleId := "g1", email := "a@x.com", name := "A",
            profilePicture := none }
          { users := [wLocalUser], tokens := [], now := 0, nextId := 1 } =
        (Except.ok u1, s1) ∧
      u1._id = wLocalUser._id ∧ u1.role = wLocalUser.role ∧
      u1.email = wLocalUser.email ∧ u1.password = wLocalUser.password ∧
      u1.name = wLocalUser.name ∧ u1.authProvider = wLocalUser.authProvider ∧
      u1.googleId = some "g1" ∧
      (∀ pic, (none : Option String) = some pic → u1.profilePicture = some pic) ∧
      ((none : Option String) = none → u1.profilePicture = wLocalUser.profilePicture) :=
  linkGoogle_frame_preserving
    { googleId := "g1", email := "a@x.com", name := "A", profilePicture := none }
    { users := [wLocalUser], tokens := [], now := 0, nextId := 1 }
    wLocalUser (by decide) (by decide) (by decide) rfl

/-! ### C4 — the reconciler is idempotent -/

/-- After the linking update sets the external id on the account with the
matching id, the external-id lookup finds an account with that id — given
that no account had the external id before. -/
theorem find?_map_link (gid : String) (pp : Option String) (uid : String) :
    ∀ l : List UserDoc,
      (∀ v ∈ l, v.googleId ≠ some gid) →
      (∃ v ∈ l, v._id = uid) →
      ∃ w, (l.map (fun v => if v._id = uid then applyLink gid pp v else v)).find?
             (fun x => decide (x.googleId = some gid)) = some w ∧ w._id = uid
  | [], _, hex => by simp at hex
  | v :: l, hno, hex => by
    by_cases hv : v._id = uid
    · refine ⟨applyLink gid pp v, ?_, hv⟩
      simp [List.find?, hv, applyLink]
    · have hvg : (decide (v.googleId = some gid)) = false := by
        simp [hno v (List.mem_cons_self v l)]
      have hex' : ∃ w ∈ l, w._id = uid := by
        rcases hex with ⟨w, hw, hwid⟩
        rcases List.mem_cons.mp hw with rfl | hw
        · exact absurd hwid hv
        · exact ⟨w, hw, hwid⟩
      rcases find?_map_link gid pp uid l
          (fun x hx => hno x (List.mem_cons_of_mem v hx)) hex' with ⟨w, hw, hwid⟩
      refine ⟨w, ?_, hwid⟩
      simp only [List.map_cons, if_neg hv, List.find?, hvg]
      exact hw

/-- C4: the reconciler is idempotent — after any successful
authenticateGoogleUser call, repeating it with the same input returns an
account with the same id and leaves the store exactly as it was (the
external-id fast path hits and performs no writes). -/
theorem authenticateGoogleUser_idempotent (g : GoogleAuthData) (s : AppState)
    (u : UserDoc) (s1 : AppState)
    (h : authenticateGoogleUser g s = (Except.ok u, s1)) :
    ∃ u2, authenticateGoogleUser g s1 = (Except.ok u2, s1) ∧ u2._id = u._id := by
  unfold authenticateGoogleUser authenticateGoogleUserBody googleCatch at h ⊢
  cases hg : findUserByGoogleId g.googleId s.users with
  | some u0 =>
    simp only [hg] at h
    obtain ⟨hu, hs⟩ := Prod.mk.injEq .. ▸ h
    obtain rfl := Except.ok.injEq .. ▸ hu
    subst hs
    exact ⟨u0, by simp only [hg], rfl⟩
  | none =>
    have hno : ∀ v ∈ s.users, v.googleId ≠ some g.googleId := by
      intro v hv
      have := List.find?_eq_none.mp hg v hv
      simpa using this
    simp only [hg] at h
    cases he : findUserByEmail g.email s.users with
    | some u0 =>
      simp only [he] at h
      unfold linkGoogleAccount at h
      cases hid : findUserById u0._id s.users with
      | none => simp [hid] at h
      | some w =>
        simp only [hid] at h
        obtain ⟨hu, hs⟩ := Prod.mk.injEq .. ▸ h
        obtain rfl := Except.ok.injEq .. ▸ hu
        have hwid : w._id = u0._id := by
          have := List.find?_some hid
          simpa using this
        have hmem : u0 ∈ s.users := List.mem_of_find?_eq_some he
        obtain ⟨w2, hw2, hw2id⟩ :=
          find?_map_link g.googleId g.profilePicture u0._id s.users hno
            ⟨u0, hmem, rfl⟩
        have hfind2 : findUserByGoogleId g.googleId s1.users = some w2 := by
          rw [← hs]
          exact hw2
        refine ⟨w2, by simp only [hfind2], ?_⟩
        rw [hw2id, ← hwid]
        simp [applyLink]
    | none =>
      simp only [he] at h
      unfold createGoogleUser at h
      by_cases hdup : (s.users.any (fun x => decide (x.email = lowerCase g.email)) ||
          s.users.any (fun x => decide (x.googleId = some g.googleId))) = true
      · simp [hdup] at h
      · rw [if_neg (by simpa using hdup)] at h
        obtain ⟨hu, hs⟩ := Prod.mk.injEq .. ▸ h
        have huu : googleNewUser g s = u := Except.ok.inj hu
        have hfind2 : findUserByGoogleId g.googleId s1.users = some u := by
          rw [← hs]
          unfold findUserByGoogleId at hg ⊢
          rw [find?_append_one _ _ _ hg, if_pos (by simp [googleNewUser]), huu]
        exact ⟨u, by simp only [hfind2], rfl⟩

/-- Input for the C4 witness. -/
def wG : GoogleAuthData :=
  { googleId := "g9", email := "b@x.com", name := "B", profilePicture := none }

/-- Empty store for the C4 witness. -/
def wS0 : AppState := { users := [], tokens := [], now := 0, nextId := 0 }

/-- Store after the first reconciliation of `wG` (a fresh account was
created). -/
def wS1 : AppState := (authenticateGoogleUser wG wS0).2

/-- The account the first reconciliation of `wG` creates. -/
def wCreated : UserDoc :=
  { _id := "oid0", name := "B", email := "b@x.com", password := none,
    role := "user", googleId := some "g9", profilePicture := none,
    authProvider := "google" }

/-- Witness for C4: a first call that creates a brand-new Google account,
then a second call that returns the same account id without touching the
store. -/
theorem authenticateGoogleUser_idempotent_witness :
    ∃ u2, authenticateGoogleUser wG wS1 = (Except.ok u2, wS1) ∧
      u2._id = wCreated._id :=
  authenticateGoogleUser_idempotent wG wS0 wCreated wS1 rfl

/-! ### C6 — rotation deletes the old record strictly before inserting -/

/-- The ledger-write sequence of a successful refresh: exactly a delete of
the presented token followed by the insert of the new record, in that
order. -/
theorem refreshAccessTokenOps_ok (rt : SignedToken) (s : AppState)
    (p : JwtPayload) (doc : TokenDoc) (user : UserDoc)
    (hv : verifyRefreshToken rt s.now = Except.ok p)
    (hd : findTokenDoc rt s.tokens = some doc)
    (hexp : ¬ doc.expiresAt < s.now)
    (hu : findUserById p.userId s.users = some user) :
    refreshAccessTokenOps rt s =
      (Except.ok (generateAccessToken user._id user.email p.role s.now),
       [LedgerOp.deleteTok rt,
        LedgerOp.insertTok
          { token := generateRefreshToken user._id user.email p.role s.now,
            userId := user._id, expiresAt := s.now + sevenDays }]) := by
  unfold refreshAccessTokenOps
  simp only [hv, hd, if_neg hexp, hu, generateTokenPair]

/-- C6: in every successful run of the refresh operation, the ledger writes
are exactly [delete old, insert new]; and — provided the ledger respects the
unique token index and the freshly issued refresh token is not already
ledgered — none of the three ledger states of the run (before the delete,
between the two writes, after the insert) contains the new record while the
old one is still present: before the delete the new record is absent, and
once the delete has happened the old record is absent for good. -/
theorem refresh_delete_before_insert (rt : SignedToken) (s : AppState)
    (a : SignedToken)
    (h : (refreshAccessTokenOps rt s).1 = Except.ok a)
    (huniq : s.tokens.Pairwise (fun x y => x.token ≠ y.token)) :
    ∃ d : TokenDoc,
      (refreshAccessTokenOps rt s).2 =
        [LedgerOp.deleteTok rt, LedgerOp.insertTok d] ∧
      ((∀ x ∈ s.tokens, x.token ≠ d.token) →
        (¬ ∃ x ∈ s.tokens, x.token = d.token) ∧
        (∀ x ∈ applyLedgerOp s.tokens (LedgerOp.deleteTok rt), x.token ≠ rt) ∧
        (∀ x ∈ applyLedgerOps s.tokens
            [LedgerOp.deleteTok rt, LedgerOp.insertTok d], x.token ≠ rt)) := by
  unfold refreshAccessTokenOps at h
  cases hv : verifyRefreshToken rt s.now with
  | error e => simp only [hv] at h; simp at h
  | ok p =>
    simp only [hv] at h
    cases hd : findTokenDoc rt s.tokens with
    | none => simp only [hd] at h; simp at h
    | some doc =>
      simp only [hd] at h
      by_cases hexp : doc.expiresAt < s.now
      · rw [if_pos hexp] at h; simp at h
      · rw [if_neg hexp] at h
        cases hu : findUserById p.userId s.users with
        | none => simp only [hu] at h; simp at h
        | some user =>
          have hops := refreshAccessTokenOps_ok rt s p doc user hv hd hexp hu
          refine ⟨{ token := generateRefreshToken user._id user.email p.role s.now,
                    userId := user._id, expiresAt := s.now + sevenDays },
                  by rw [hops], ?_⟩
          intro hfr
          have hdocmem : doc ∈ s.tokens := List.mem_of_find?_eq_some hd
          have hdoctok : doc.token = rt := by
            have := List.find?_some hd
            simpa using this
          refine ⟨?_, ?_, ?_⟩
          · rintro ⟨x, hx, hxt⟩
            exact absurd hxt (hfr x hx)
          · intro x hx
            exact deleteOneToken_removes rt s.tokens huniq x hx
          · intro x hx
            simp only [applyLedgerOps, List.foldl, applyLedgerOp] at hx
            rcases List.mem_append.mp hx with hx | hx
            · exact deleteOneToken_removes rt s.tokens huniq x hx
            · have hxd := List.mem_singleton.mp hx
              rw [hxd]
              intro hcontra
              exact hfr doc hdocmem (hdoctok.trans hcontra.symm)

/-- The refresh token presented in the refresh witnesses. -/
def wRt : SignedToken := generateRefreshToken "u1" "a@x.com" "user" 0

/-- Store for the refresh witnesses: the local account plus the ledgered
`wRt`, five time units after issuance. -/
def wRefState : AppState :=
  { users := [wLocalUser],
    tokens := [{ token := wRt, userId := "u1", expiresAt := 10080 }],
    now := 5, nextId := 1 }

/-- Witness for C6: a concrete successful refresh whose write trace is the
delete of the old record followed by the insert of the new one, with no
state holding both. -/
theorem refresh_delete_before_insert_witness :
    ∃ d : TokenDoc,
      (refreshAccessTokenOps wRt wRefState).2 =
        [LedgerOp.deleteTok wRt, LedgerOp.insertTok d] ∧
      ((∀ x ∈ wRefState.tokens, x.token ≠ d.token) →
        (¬ ∃ x ∈ wRefState.tokens, x.token = d.token) ∧
        (∀ x ∈ applyLedgerOp wRefState.tokens (LedgerOp.deleteTok wRt),
          x.token ≠ wRt) ∧
        (∀ x ∈ applyLedgerOps wRefState.tokens
            [LedgerOp.deleteTok wRt, LedgerOp.insertTok d], x.token ≠ wRt)) :=
  refresh_delete_before_insert wRt wRefState
    (generateAccessToken "u1" "a@x.com" "user" 5) rfl (by decide)

/-! ### C1 — refresh rotates the ledger but returns only the access token -/

/-- Counterexample for C1 as stated: at a concrete store, the refresh
operation succeeds, yet its entire return value is the single new access
token (the source signature is `Promise<string>` returning
`tokens.accessToken`); the rotated refresh token is newly present in the
ledger but differs from the returned token, so the caller is never given the
new refresh token. -/
theorem refresh_returns_only_access_token :
    (refreshAccessToken wRt wRefState).1 =
        Except.ok (generateAccessToken "u1" "a@x.com" "user" 5) ∧
    (∃ x ∈ ((refreshAccessToken wRt wRefState).2).tokens,
        x.token = generateRefreshToken "u1" "a@x.com" "user" 5) ∧
    (∀ x ∈ wRefState.tokens,
        x.token ≠ generateRefreshToken "u1" "a@x.com" "user" 5) ∧
    generateAccessToken "u1" "a@x.com" "user" 5 ≠
        generateRefreshToken "u1" "a@x.com" "user" 5 :=
  ⟨rfl, by decide, by decide, by decide⟩

/-- C1 amended: a successful refresh returns (only) the new access token;
afterwards the presented token's ledger record is gone — a subsequent
revoke of it reports 404 not-found — while the newly issued refresh token
is in the ledger and revoking it succeeds. -/
theorem refresh_rotation_amended (rt : SignedToken) (s : AppState)
    (p : JwtPayload) (doc : TokenDoc) (user : UserDoc)
    (hv : verifyRefreshToken rt s.now = Except.ok p)
    (hd : findTokenDoc rt s.tokens = some doc)
    (hexp : ¬ doc.expiresAt < s.now)
    (hu : findUserById p.userId s.users = some user)
    (huniq : s.tokens.Pairwise (fun x y => x.token ≠ y.token))
    (hfresh : ∀ x ∈ s.tokens,
      x.token ≠ generateRefreshToken user._id user.email p.role s.now) :
    ∃ s1, refreshAccessToken rt s =
        (Except.ok (generateAccessToken user._id user.email p.role s.now), s1) ∧
      (revokeRefreshToken rt s1).1 =
        Except.error ⟨404, "Refresh token not found"⟩ ∧
      (∃ x ∈ s1.tokens,
        x.token = generateRefreshToken user._id user.email p.role s.now) ∧
      (revokeRefreshToken
          (generateRefreshToken user._id user.email p.role s.now) s1).1 =
        Except.ok () := by
  have hops := refreshAccessTokenOps_ok rt s p doc user hv hd hexp hu
  have hdocmem : doc ∈ s.tokens := List.mem_of_find?_eq_some hd
  have hdoctok : doc.token = rt := by simpa using List.find?_some hd
  refine ⟨{ s with tokens := (deleteOneToken rt s.tokens).2 ++
      [{ token := generateRefreshToken user._id user.email p.role s.now,
         userId := user._id, expiresAt := s.now + sevenDays }] },
    ?_, ?_, ?_, ?_⟩
  · unfold refreshAccessToken
    rw [hops]
    rfl
  · have hzero : (deleteOneToken rt ((deleteOneToken rt s.tokens).2 ++
        [{ token := generateRefreshToken user._id user.email p.role s.now,
           userId := user._id, expiresAt := s.now + sevenDays }])).1 = 0 := by
      apply (deleteOneToken_count_zero_iff rt _).mpr
      intro x hx
      rcases List.mem_append.mp hx with hx | hx
      · exact deleteOneToken_removes rt s.tokens huniq x hx
      · rw [List.mem_singleton.mp hx]
        intro hc
        exact hfresh doc hdocmem (hdoctok.trans hc.symm)
    rw [revokeRefreshToken_eq]
    simp only [if_pos hzero]
  · exact ⟨_, List.mem_append_right _ (List.mem_singleton_self _), rfl⟩
  · have hnz : (deleteOneToken
        (generateRefreshToken user._id user.email p.role s.now)
        ((deleteOneToken rt s.tokens).2 ++
          [{ token := generateRefreshToken user._id user.email p.role s.now,
             userId := user._id, expiresAt := s.now + sevenDays }])).1 ≠ 0 := by
      intro h0
      exact (deleteOneToken_count_zero_iff _ _).mp h0 _
        (List.mem_append_right _ (List.mem_singleton_self _)) rfl
    rw [revokeRefreshToken_eq]
    simp only [if_neg hnz]

/-- Witness for the amended C1: the concrete refresh of `wRt` in
`wRefState` — the old record becomes unrevocable (404) and the new refresh
token is ledgered and revocable. -/
theorem refresh_rotation_amended_witness :
    ∃ s1, refreshAccessToken wRt wRefState =
        (Except.ok (generateAccessToken "u1" "a@x.com" "user" 5), s1) ∧
      (revokeRefreshToken wRt s1).1 =
        Except.error ⟨404, "Refresh token not found"⟩ ∧
      (∃ x ∈ s1.tokens,
        x.token = generateRefreshToken "u1" "a@x.com" "user" 5) ∧
      (revokeRefreshToken (generateRefreshToken "u1" "a@x.com" "user" 5) s1).1 =
        Except.ok () :=
  refresh_rotation_amended wRt wRefState
    { userId := "u1", email := "a@x.com", role := "user", iat := 0 }
    { token := wRt, userId := "u1", expiresAt := 10080 }
    wLocalUser rfl (by decide) (by decide) (by decide)
    (List.pairwise_singleton _ _) (by decide)

end EB


